import Mathlib

/-!
Shallow embedding of the FastAPI service defined in `src/ten.py` (the
canonical, richer of the two near-duplicate source files; `src/main.py`
declares textually identical `root`, `get_users` and `get_user` handlers).

Modelling conventions:
* `datetime.now()` is nondeterministic, so every handler that calls it
  receives the current time as an explicit `now : Nat` parameter.
* The framework's declarative request validation (the `gt=0` bound on the
  `user_id` path parameter, the `min_length=8` bound on `password`, and the
  required/optional status of body fields) runs before the handler body;
  it is modelled as an explicit validation step in the `route_*` wrappers,
  with raw request bodies carrying `Option` fields so that a missing
  required field is representable.
* `raise HTTPException(status, detail)` becomes the `httpException`
  constructor of `HandlerResult`; the route wrapper maps it to an error
  response and maps a normal return to the decorator's success status.
* Python `float` prices (`999.99`, `19.99`) are modelled as exact rationals;
  no arithmetic is ever performed on them.
-/

namespace SwaggerApi

/-- Pydantic model `UserBase`: required `email`, optional `full_name`. -/
structure UserBase where
  email : String
  full_name : Option String
  deriving DecidableEq

/-- Pydantic model `UserCreate`: `UserBase` plus required `password`
(min length 8, enforced by validation, not stored here). -/
structure UserCreate where
  email : String
  full_name : Option String
  password : String
  deriving DecidableEq

/-- Pydantic model `UserResponse`: `UserBase` plus `id`, `is_active`,
`created_at`. -/
structure UserResponse where
  email : String
  full_name : Option String
  id : Int
  is_active : Bool
  created_at : Nat
  deriving DecidableEq

/-- Pydantic model `Product`. -/
structure Product where
  id : Int
  name : String
  price : ℚ
  category : Option String
  deriving DecidableEq

/-- Body of the health-check response of `root`. -/
structure HealthStatus where
  status : String
  timestamp : Nat
  deriving DecidableEq

/-- Body of the `delete_user` response. -/
structure DeleteMessage where
  message : String
  deriving DecidableEq

/-- Raw JSON body for a `UserBase`, before validation: every field may be
absent. -/
structure RawUserBase where
  email : Option String
  full_name : Option String
  deriving DecidableEq

/-- Raw JSON body for a `UserCreate`, before validation. -/
structure RawUserCreate where
  email : Option String
  full_name : Option String
  password : Option String
  deriving DecidableEq

/-- Outcome of a handler body: either a `raise HTTPException(...)` or a
normal return value. -/
inductive HandlerResult (α : Type) where
  | httpException (status : Nat) (detail : String)
  | value (v : α)
  deriving DecidableEq

/-- Observable HTTP outcome of a request: a request-validation failure
(raised before the handler runs), an `HTTPException` error, or a success
response with the route's status code. -/
inductive Response (α : Type) where
  | validationError
  | error (status : Nat) (detail : String)
  | ok (status : Nat) (body : α)
  deriving DecidableEq

/-- Map a handler outcome to a response, using the route decorator's
success status code. -/
def dispatch {α : Type} (successStatus : Nat) : HandlerResult α → Response α
  | .httpException s d => Response.error s d
  | .value v => Response.ok successStatus v

/-- Validation of a raw `UserBase` body: `email` is required, `full_name`
is optional. -/
def validateUserBase (b : RawUserBase) : Option UserBase :=
  match b.email with
  | some e => some { email := e, full_name := b.full_name }
  | none => none

/-- Validation of a raw `UserCreate` body: `email` and `password` are
required and `password` must have length at least 8 (`min_length=8`). -/
def validateUserCreate (b : RawUserCreate) : Option UserCreate :=
  match b.email, b.password with
  | some e, some p =>
      if 8 ≤ p.length then
        some { email := e, full_name := b.full_name, password := p }
      else
        none
  | _, _ => none

/-- Handler of `GET /` (`src/ten.py` line 40): returns
`{"status": "healthy", "timestamp": datetime.now()}`. -/
def root (now : Nat) : HealthStatus :=
  { status := "healthy", timestamp := now }

/-- Handler of `GET /users` (`src/ten.py` line 46): ignores `skip` and
`limit` and returns the single mock user. -/
def get_users (now : Nat) (skip limit : Int) : List UserResponse :=
  [ { email := "john@example.com", full_name := some "John Doe",
      id := 1, is_active := true, created_at := now } ]

/-- Handler of `GET /users/{user_id}` (`src/ten.py` line 68): raises a 404
`HTTPException` when `user_id != 1`, otherwise returns the fixed record. -/
def get_user (now : Nat) (user_id : Int) : HandlerResult UserResponse :=
  if user_id ≠ 1 then
    HandlerResult.httpException 404 "User not found"
  else
    HandlerResult.value
      { email := "john@example.com", full_name := some "John Doe",
        id := user_id, is_active := true, created_at := now }

/-- Handler of `POST /users` (`src/ten.py` line 88): echoes `email` and
`full_name`, fixes `id := 2` and `is_active := true`, drops the password. -/
def create_user (now : Nat) (user : UserCreate) : UserResponse :=
  { email := user.email, full_name := user.full_name,
    id := 2, is_active := true, created_at := now }

/-- Handler of `PUT /users/{user_id}` (`src/ten.py` line 103): echoes the
path id and the body fields, with `is_active := true`. -/
def update_user (now : Nat) (user_id : Int) (user : UserBase) : UserResponse :=
  { email := user.email, full_name := user.full_name,
    id := user_id, is_active := true, created_at := now }

/-- Handler of `DELETE /users/{user_id}` (`src/ten.py` line 122): returns
the interpolated message, touching no state. -/
def delete_user (user_id : Int) : DeleteMessage :=
  { message := "User " ++ toString user_id ++ " deleted successfully" }

/-- First element of the static product catalog (`src/ten.py` line 137). -/
def product_laptop : Product :=
  { id := 1, name := "Laptop", price := 999.99, category := some "Electronics" }

/-- Second element of the static product catalog (`src/ten.py` line 138). -/
def product_book : Product :=
  { id := 2, name := "Book", price := 19.99, category := some "Books" }

/-- Python truthiness of an optional string, as tested by `if category:`
in `get_products`: `None` and the empty string are falsy. -/
def truthy : Option String → Bool
  | none => false
  | some s => s != ""

/-- Handler of `GET /products` (`src/ten.py` line 132): filters the static
catalog by exact equality on `category` when the parameter is truthy. -/
def get_products (category : Option String) : List Product :=
  let products := [product_laptop, product_book]
  if truthy category then
    products.filter (fun p => p.category == category)
  else
    products

/-- Route wrapper of `GET /`: no validation, success status 200. -/
def route_root (now : Nat) : Response HealthStatus :=
  Response.ok 200 (root now)

/-- Route wrapper of `GET /users`: no validation, success status 200. -/
def route_get_users (now : Nat) (skip limit : Int) : Response (List UserResponse) :=
  Response.ok 200 (get_users now skip limit)

/-- Route wrapper of `GET /users/{user_id}`: the `gt=0` path constraint is
checked before the handler runs; success status 200. -/
def route_get_user (now : Nat) (user_id : Int) : Response UserResponse :=
  if 0 < user_id then dispatch 200 (get_user now user_id)
  else Response.validationError

/-- Route wrapper of `POST /users`: the body is validated as a
`UserCreate` before the handler runs; success status 201. -/
def route_create_user (now : Nat) (body : RawUserCreate) : Response UserResponse :=
  match validateUserCreate body with
  | some u => Response.ok 201 (create_user now u)
  | none => Response.validationError

/-- Route wrapper of `PUT /users/{user_id}`: the body is validated as a
`UserBase` before the handler runs; success status 200. -/
def route_update_user (now : Nat) (user_id : Int) (body : RawUserBase) : Response UserResponse :=
  match validateUserBase body with
  | some u => Response.ok 200 (update_user now user_id u)
  | none => Response.validationError

/-- Route wrapper of `DELETE /users/{user_id}`: no validation beyond the
integer path parameter; success status 200. -/
def route_delete_user (user_id : Int) : Response DeleteMessage :=
  Response.ok 200 (delete_user user_id)

/-- Route wrapper of `GET /products`: no validation, success status 200. -/
def route_get_products (category : Option String) : Response (List Product) :=
  Response.ok 200 (get_products category)

/-- C1: for every integer `user_id > 0`, `GET /users/{user_id}` returns
status 404 with detail "User not found" iff `user_id ≠ 1`, and when
`user_id = 1` it returns status 200 with the fixed record `id = 1`,
`email = "john@example.com"`, `full_name = "John Doe"`, `is_active = true`. -/
theorem c1_get_user_found_iff (now : Nat) (user_id : Int) (h : 0 < user_id) :
    (route_get_user now user_id = Response.error 404 "User not found" ↔ user_id ≠ 1)
    ∧ (user_id = 1 →
        route_get_user now user_id =
          Response.ok 200
            { email := "john@example.com", full_name := some "John Doe",
              id := 1, is_active := true, created_at := now }) := by
  by_cases h1 : user_id = 1
  · subst h1
    simp [route_get_user, get_user, dispatch]
  · simp [route_get_user, get_user, dispatch, h, h1]

/-- Witness for C1 at `now = 0`, `user_id = 1`. -/
theorem c1_get_user_found_iff_witness :
    (0 : Int) < 1
    ∧ ((route_get_user 0 1 = Response.error 404 "User not found" ↔ (1 : Int) ≠ 1)
      ∧ ((1 : Int) = 1 →
          route_get_user 0 1 =
            Response.ok 200
              { email := "john@example.com", full_name := some "John Doe",
                id := 1, is_active := true, created_at := 0 })) :=
  ⟨by decide, c1_get_user_found_iff 0 1 (by decide)⟩

/-- C2: for all integer `skip` and `limit`, `GET /users` returns status 200
with the same one-element list whose element has `id = 1`,
`email = "john@example.com"`, `is_active = true`; paging parameters have no
effect. -/
theorem c2_get_users_ignores_paging (now : Nat) (skip limit : Int) :
    route_get_users now skip limit =
      Response.ok 200
        [ { email := "john@example.com", full_name := some "John Doe",
            id := 1, is_active := true, created_at := now } ] := rfl

/-- C3: for every integer `user_id ≤ 0`, `GET /users/{user_id}` produces a
request-validation failure before the handler runs, never the handler's 404
not-found error. -/
theorem c3_nonpositive_id_validation (now : Nat) (user_id : Int) (h : user_id ≤ 0) :
    route_get_user now user_id = Response.validationError
    ∧ route_get_user now user_id ≠ Response.error 404 "User not found" := by
  have h' : ¬ 0 < user_id := not_lt.mpr h
  refine ⟨?_, ?_⟩ <;> simp [route_get_user, h']

/-- Witness for C3 at `now = 0`, `user_id = 0`. -/
theorem c3_nonpositive_id_validation_witness :
    (0 : Int) ≤ 0
    ∧ (route_get_user 0 0 = Response.validationError
      ∧ route_get_user 0 0 ≠ Response.error 404 "User not found") :=
  ⟨by decide, c3_nonpositive_id_validation 0 0 (by decide)⟩

/-- C4: `POST /users` with a body whose password has length at least 8
returns status 201 with `id = 2`, the body's `email` and `full_name`
echoed, and `is_active = true`; a password shorter than 8, or a missing
required field (`email` or `password`), produces a validation failure. -/
theorem c4_create_user_validation (now : Nat) (email : String) (fn : Option String)
    (password : String) :
    (8 ≤ password.length →
      route_create_user now
          { email := some email, full_name := fn, password := some password } =
        Response.ok 201
          { email := email, full_name := fn, id := 2, is_active := true, created_at := now })
    ∧ (password.length < 8 →
      route_create_user now
          { email := some email, full_name := fn, password := some password } =
        Response.validationError)
    ∧ (route_create_user now { email := none, full_name := fn, password := some password } =
        Response.validationError)
    ∧ (route_create_user now { email := some email, full_name := fn, password := none } =
        Response.validationError) := by
  refine ⟨?_, ?_, rfl, rfl⟩
  · intro hp
    simp [route_create_user, validateUserCreate, create_user, hp]
  · intro hp
    have h' : ¬ 8 ≤ password.length := not_le.mpr hp
    simp [route_create_user, validateUserCreate, h']

/-- Witness for C4 at `now = 0`, body `email = "a@b.com"`,
`password = "password1"`. -/
theorem c4_create_user_validation_witness :
    8 ≤ String.length "password1"
    ∧ route_create_user 0
          { email := some "a@b.com", full_name := none, password := some "password1" } =
        Response.ok 201
          { email := "a@b.com", full_name := none, id := 2, is_active := true, created_at := 0 } :=
  ⟨by decide, (c4_create_user_validation 0 "a@b.com" none "password1").1 (by decide)⟩

/-- C5: for every integer `user_id` and every `UserBase` body,
`PUT /users/{user_id}` returns status 200 echoing the path id and the body
fields with `is_active = true`; there is no existence check. -/
theorem c5_update_user_echo (now : Nat) (user_id : Int) (user : UserBase) :
    route_update_user now user_id { email := some user.email, full_name := user.full_name } =
      Response.ok 200
        { email := user.email, full_name := user.full_name,
          id := user_id, is_active := true, created_at := now } := rfl

/-- C6: for every integer `user_id`, `DELETE /users/{user_id}` returns
status 200 with the message "User {user_id} deleted successfully"; the
handler is a pure function of its argument, so no state changes. -/
theorem c6_delete_user_message (user_id : Int) :
    route_delete_user user_id =
      Response.ok 200
        { message := "User " ++ toString user_id ++ " deleted successfully" } := rfl

/-- C7 counterexample: when the category parameter is provided as the empty
string, `get_products` returns both catalog items, not the (empty) list of
items whose category equals the parameter. -/
theorem c7_counterexample_empty_category :
    get_products (some "") ≠
      List.filter (fun p => p.category == some "") [product_laptop, product_book] := by
  intro hcontra
  exact absurd (congrArg List.length hcontra) (by decide)

/-- C7 (amended): `GET /products` with no category returns the two-item
catalog in order; with a nonempty category parameter it returns exactly the
items whose category equals the parameter under exact case-sensitive
comparison, so "Books" yields the single Book item and "Unknown" yields the
empty list. (An empty-string parameter applies no filter.) -/
theorem c7_get_products_filter (c : String) (h : c ≠ "") :
    get_products none = [product_laptop, product_book]
    ∧ get_products (some c) =
        List.filter (fun p => p.category == some c) [product_laptop, product_book]
    ∧ get_products (some "Books") = [product_book]
    ∧ get_products (some "Unknown") = [] := by
  refine ⟨rfl, ?_, rfl, rfl⟩
  have ht : truthy (some c) = true := by simp [truthy, h]
  simp [get_products, ht]

/-- Witness for C7 at `c = "Books"`. -/
theorem c7_get_products_filter_witness :
    "Books" ≠ ""
    ∧ (get_products none = [product_laptop, product_book]
      ∧ get_products (some "Books") =
          List.filter (fun p => p.category == some "Books") [product_laptop, product_book]
      ∧ get_products (some "Books") = [product_book]
      ∧ get_products (some "Unknown") = []) :=
  ⟨by decide, c7_get_products_filter "Books" (by decide)⟩

/-- C8: `GET /` always returns status 200 with `status = "healthy"` and the
timestamp field present (carrying the current time). -/
theorem c8_root_healthy (now : Nat) :
    route_root now = Response.ok 200 { status := "healthy", timestamp := now } := rfl

/-- C9: an empty-string category parameter behaves exactly like an absent
one: no filtering happens and both catalog items are returned. -/
theorem c9_empty_category_no_filter :
    get_products (some "") = get_products none
    ∧ get_products (some "") = [product_laptop, product_book] :=
  ⟨rfl, rfl⟩

/-- C10: the `POST /users` response is independent of the password value:
two bodies agreeing on `email` and `full_name` whose passwords both pass
validation produce equal responses at the same instant (and `UserResponse`
has no password field). -/
theorem c10_password_independent (now : Nat) (email : String) (fn : Option String)
    (p1 p2 : String) (h1 : 8 ≤ p1.length) (h2 : 8 ≤ p2.length) :
    route_create_user now { email := some email, full_name := fn, password := some p1 } =
      route_create_user now { email := some email, full_name := fn, password := some p2 } := by
  simp [route_create_user, validateUserCreate, create_user, h1, h2]

/-- Witness for C10 at two concrete valid passwords. -/
theorem c10_password_independent_witness :
    8 ≤ String.length "password1"
    ∧ 8 ≤ String.length "hunter2hunter2"
    ∧ route_create_user 0
          { email := some "a@b.com", full_name := none, password := some "password1" } =
        route_create_user 0
          { email := some "a@b.com", full_name := none, password := some "hunter2hunter2" } :=
  ⟨by decide, by decide,
    c10_password_independent 0 "a@b.com" none "password1" "hunter2hunter2"
      (by decide) (by decide)⟩

end SwaggerApi
